import Mathlib

/-!
Verification of the Cutpoint Classification & Weighted Rating Engine.

Shallow embedding of the star-rating logic of the contract-performance
dashboard.  JavaScript numbers are modelled as rationals (ℚ): every
comparison and arithmetic operation used by the engine is exact on the
inputs that appear here, and `Math.round` is modelled by its
round-half-toward-positive-infinity semantics (`jsRound`).
Nullable values (`T | null` / possibly-undefined lookups) are `Option`.
-/

namespace MaData

/-- Embeds `interface ContractCutpoints`: the per-measure, per-year
threshold quadruple, each threshold nullable. -/
structure ContractCutpoints where
  cut_2 : Option ℚ
  cut_3 : Option ℚ
  cut_4 : Option ℚ
  cut_5 : Option ℚ
deriving DecidableEq

/-- Embeds `interface ContractBandPosition` (year, star_rating, position);
`position` is one of the strings top/middle/bottom or null. -/
structure ContractBandPosition where
  year : ℤ
  star_rating : ℚ
  position : Option String
deriving DecidableEq

/-- Embeds `interface ContractYearlyData`. -/
structure ContractYearlyData where
  value : Option ℚ
  measure_id : String
  star_rating : Option ℚ
  weight : Option ℚ
deriving DecidableEq

/-- Embeds `interface ContractMeasureRow`.  The `yearly` record
(stringified year → data) is a list of key/value pairs. -/
structure ContractMeasureRow where
  measure_id : String
  measure_key : String
  measure_name : String
  part : String
  lower_is_better : Bool
  weight : ℚ
  in_2026 : Bool
  yearly : List (String × Option ContractYearlyData)
  latest_band : Option ContractBandPosition
  cutpoints : Option ContractCutpoints
deriving DecidableEq

/-- The guarded comparison `cut !== null && value >= cut` of the source:
false when the threshold is null, otherwise the threshold is ≤ the value. -/
def hitsGe (value : ℚ) : Option ℚ → Bool
  | none => false
  | some c => decide (c ≤ value)

/-- The guarded comparison `cut !== null && value <= cut` of the source:
false when the threshold is null, otherwise the value is ≤ the threshold. -/
def hitsLe (value : ℚ) : Option ℚ → Bool
  | none => false
  | some c => decide (value ≤ c)

/-- Embeds `calcStarFromPerformance` (src/unnamed/part_000, lines
1171–1191): absent cutpoints give the default 3; otherwise the
direction-dependent top-down threshold chain.  The result is a JS number,
modelled as ℚ. -/
def calcStarFromPerformance (value : ℚ) (cutpoints : Option ContractCutpoints)
    (lowerIsBetter : Bool) : ℚ :=
  match cutpoints with
  | none => 3
  | some cp =>
    if lowerIsBetter then
      if hitsLe value cp.cut_5 then 5
      else if hitsLe value cp.cut_4 then 4
      else if hitsLe value cp.cut_3 then 3
      else if hitsLe value cp.cut_2 then 2
      else 1
    else
      if hitsGe value cp.cut_5 then 5
      else if hitsGe value cp.cut_4 then 4
      else if hitsGe value cp.cut_3 then 3
      else if hitsGe value cp.cut_2 then 2
      else 1

/-- JS `Math.round`: round half toward positive infinity, i.e. the floor
of `x + 1/2` (via the computable `Rat.floor`). -/
def jsRound (x : ℚ) : ℤ := (x + 1/2).floor

/-- The source's `Math.round(x * 100) / 100` (round to hundredths). -/
def round2 (x : ℚ) : ℚ := (jsRound (x * 100) : ℚ) / 100

/-- The source's half-star rounding `Math.round(avg * 2) / 2`
(ContractTab, lines 1398–1424). -/
def halfStarOf (x : ℚ) : ℚ := (jsRound (x * 2) : ℚ) / 2

/-- Embeds `isOutsideBand` (src/unnamed/part_000, lines 1251–1255):
false when cutpoints are absent, otherwise true exactly when the
classifier's natural rating differs from the assigned one. -/
def isOutsideBand (value : ℚ) (starRating : ℚ)
    (cutpoints : Option ContractCutpoints) (lowerIsBetter : Bool) : Bool :=
  match cutpoints with
  | none => false
  | some _ => decide (calcStarFromPerformance value cutpoints lowerIsBetter ≠ starRating)

/-- Accumulator of the `calcSimulatedWeightedAvg` loop:
`totalWeight`, `weightedSum`, `hasAnySimValue`. -/
structure SimAcc where
  totalWeight : ℚ
  weightedSum : ℚ
  hasAnySimValue : Bool
deriving DecidableEq

/-- One iteration of the `calcSimulatedWeightedAvg` loop
(src/unnamed/part_000, lines 1201–1220): measures not in 2026 are
skipped; a supplied simulated value is classified (setting
`hasAnySimValue`); otherwise a truthy `latest_band.star_rating` is used;
a resolved star adds `weight` and `star * weight` to the sums. -/
def simStep (simValues : String → Option ℚ) (acc : SimAcc)
    (m : ContractMeasureRow) : SimAcc :=
  if m.in_2026 = false then acc
  else
    match simValues m.measure_key with
    | some v =>
      let star := calcStarFromPerformance v m.cutpoints m.lower_is_better
      ⟨acc.totalWeight + m.weight, acc.weightedSum + star * m.weight, true⟩
    | none =>
      match m.latest_band with
      | some b =>
        if b.star_rating = 0 then acc
        else ⟨acc.totalWeight + m.weight,
              acc.weightedSum + b.star_rating * m.weight, acc.hasAnySimValue⟩
      | none => acc

/-- Embeds `calcSimulatedWeightedAvg` (src/unnamed/part_000, lines
1194–1225), with the contract's measure list and the `simValues` record
as arguments: null unless at least one simulated value was supplied,
otherwise the hundredths-rounded weighted average when the total weight
is positive, else null. -/
def calcSimulatedWeightedAvg (measures : List ContractMeasureRow)
    (simValues : String → Option ℚ) : Option ℚ :=
  let acc := measures.foldl (simStep simValues) ⟨0, 0, false⟩
  if acc.hasAnySimValue = false then none
  else if 0 < acc.totalWeight then some (round2 (acc.weightedSum / acc.totalWeight))
  else none

/-- One step of the star/weight accumulation of the
`calcSimulatedWeightedAvg` loop, on an already-resolved
(rating, weight) pair: a null rating contributes nothing. -/
def aggStep (acc : ℚ × ℚ) (e : Option ℚ × ℚ) : ℚ × ℚ :=
  match e.1 with
  | some s => (acc.1 + e.2, acc.2 + s * e.2)
  | none => acc

/-- Total weight and weighted sum of a list of (rating, weight) pairs,
exactly as accumulated by the source loop. -/
def aggSums (l : List (Option ℚ × ℚ)) : ℚ × ℚ := l.foldl aggStep (0, 0)

/-- The aggregation core of `calcSimulatedWeightedAvg` (the spec's
WeightedAggregator) on resolved (rating, weight) pairs: the source's
`totalWeight > 0 ? Math.round((weightedSum / totalWeight) * 100) / 100 : null`. -/
def weightedAvg (l : List (Option ℚ × ℚ)) : Option ℚ :=
  if 0 < (aggSums l).1 then some (round2 ((aggSums l).2 / (aggSums l).1)) else none

/-- The raw (unrounded) weighted score `Σ(rating·weight) / Σ(weight)`
over the non-null entries. -/
def rawScore (l : List (Option ℚ × ℚ)) : ℚ := (aggSums l).2 / (aggSums l).1

/-- Embeds the simulated-star output cell of ContractTab
(src/unnamed/part_000, lines 1564–1591): rendered only when the measure
is in 2026 and has cutpoints and a simulated value was entered; the
simulated star is the classifier applied to the entered value. -/
def simStarCell (m : ContractMeasureRow) (simValues : String → Option ℚ) : Option ℚ :=
  match m.in_2026, m.cutpoints, simValues m.measure_key with
  | true, some _, some v => some (calcStarFromPerformance v m.cutpoints m.lower_is_better)
  | _, _, _ => none

/-- Modelled from the spec: "round to the nearest 0.5 using standard
round-half-away-from-zero" — the half-rounding function the spec names,
used to compare against the source's `Math.round`. -/
def roundAway (x : ℚ) : ℤ := if 0 ≤ x then (x + 1/2).floor else -((-x + 1/2).floor)

/-- The computable `Rat.floor` agrees with the mathematical floor. -/
lemma ratFloor_eq_intFloor (q : ℚ) : q.floor = ⌊q⌋ :=
  (Rat.floor_def' q).trans Rat.floor_def.symm

/-- `jsRound` is the mathematical floor of `x + 1/2`. -/
lemma jsRound_eq_floor (x : ℚ) : jsRound x = ⌊x + 1/2⌋ :=
  ratFloor_eq_intFloor _

/-- Resolution of one measure's star inside the `calcSimulatedWeightedAvg`
loop: a supplied simulated value is classified, otherwise a truthy
`latest_band.star_rating` is used, otherwise no star. -/
def resolveStar (simValues : String → Option ℚ) (m : ContractMeasureRow) : Option ℚ :=
  match simValues m.measure_key with
  | some v => some (calcStarFromPerformance v m.cutpoints m.lower_is_better)
  | none =>
    match m.latest_band with
    | some b => if b.star_rating = 0 then none else some b.star_rating
    | none => none

/-- Evaluation rule for `jsRound` from the floor characterisation. -/
lemma jsRound_eq_of (x : ℚ) (n : ℤ) (h1 : (n : ℚ) ≤ x + 1/2) (h2 : x + 1/2 < n + 1) :
    jsRound x = n := by
  rw [jsRound, ratFloor_eq_intFloor]
  exact Int.floor_eq_iff.mpr ⟨h1, h2⟩

lemma hitsGe_eq_true_iff (v : ℚ) (c : Option ℚ) :
    hitsGe v c = true ↔ ∃ x, c = some x ∧ x ≤ v := by
  cases c <;> simp [hitsGe]

lemma hitsLe_eq_true_iff (v : ℚ) (c : Option ℚ) :
    hitsLe v c = true ↔ ∃ x, c = some x ∧ v ≤ x := by
  cases c <;> simp [hitsLe]

lemma hitsGe_mono (c : Option ℚ) {v1 v2 : ℚ} (h : v1 ≤ v2)
    (hv : hitsGe v1 c = true) : hitsGe v2 c = true := by
  cases c with
  | none => simp [hitsGe] at hv
  | some x =>
    simp only [hitsGe, decide_eq_true_eq] at hv ⊢
    exact hv.trans h

lemma hitsLe_anti (c : Option ℚ) {v1 v2 : ℚ} (h : v1 ≤ v2)
    (hv : hitsLe v2 c = true) : hitsLe v1 c = true := by
  cases c with
  | none => simp [hitsLe] at hv
  | some x =>
    simp only [hitsLe, decide_eq_true_eq] at hv ⊢
    exact h.trans hv

/-- Shifting the accumulator of the star/weight fold. -/
lemma aggSums_foldl (l : List (Option ℚ × ℚ)) :
    ∀ a : ℚ × ℚ, l.foldl aggStep a = (a.1 + (aggSums l).1, a.2 + (aggSums l).2) := by
  induction l with
  | nil => intro a; simp [aggSums]
  | cons e t ih =>
    intro a
    rcases e with ⟨r, w⟩
    have hAgg : aggSums ((r, w) :: t) =
        ((aggStep (0, 0) (r, w)).1 + (aggSums t).1,
         (aggStep (0, 0) (r, w)).2 + (aggSums t).2) := by
      show List.foldl aggStep (0, 0) ((r, w) :: t) = _
      rw [List.foldl_cons]
      exact ih (aggStep (0, 0) (r, w))
    rw [List.foldl_cons, ih (aggStep a (r, w)), hAgg]
    cases r <;> simp only [aggStep] <;> simp only [Prod.mk.injEq] <;>
      constructor <;> ring

/-- One-step unfolding of `aggSums`. -/
lemma aggSums_cons (r : Option ℚ) (w : ℚ) (t : List (Option ℚ × ℚ)) :
    aggSums ((r, w) :: t) =
      ((aggStep (0, 0) (r, w)).1 + (aggSums t).1,
       (aggStep (0, 0) (r, w)).2 + (aggSums t).2) := by
  show List.foldl aggStep (0, 0) ((r, w) :: t) = _
  rw [List.foldl_cons]
  exact aggSums_foldl t (aggStep (0, 0) (r, w))

/-- The accumulated total weight is the sum of the weights of the
non-null entries. -/
lemma aggSums_fst (l : List (Option ℚ × ℚ)) :
    (aggSums l).1 = ((l.filter fun e => e.1.isSome).map fun e => e.2).sum := by
  induction l with
  | nil => simp [aggSums]
  | cons e t ih =>
    rcases e with ⟨r, w⟩
    rw [aggSums_cons]
    cases r <;> simp [aggStep, List.filter_cons, ih]

/-- The resolved (rating, weight) pairs of the measures of one pass. -/
def resolvedPairs (simValues : String → Option ℚ)
    (ms : List ContractMeasureRow) : List (Option ℚ × ℚ) :=
  (ms.filter fun m => m.in_2026).map fun m => (resolveStar simValues m, m.weight)

/-- The loop accumulator of `calcSimulatedWeightedAvg` is exactly the
star/weight sums over the resolved pairs, together with the
"any simulated value supplied on an in-2026 measure" flag. -/
lemma simStep_foldl (simValues : String → Option ℚ) (ms : List ContractMeasureRow) :
    ∀ a : SimAcc,
      ms.foldl (simStep simValues) a =
        ⟨a.totalWeight + (aggSums (resolvedPairs simValues ms)).1,
         a.weightedSum + (aggSums (resolvedPairs simValues ms)).2,
         a.hasAnySimValue ||
           ms.any fun m => m.in_2026 && (simValues m.measure_key).isSome⟩ := by
  induction ms with
  | nil => intro a; simp [resolvedPairs, aggSums]
  | cons m t ih =>
    intro a
    rw [List.foldl_cons, ih (simStep simValues a m)]
    by_cases h26 : m.in_2026
    · have hfilter : resolvedPairs simValues (m :: t) =
          (resolveStar simValues m, m.weight) :: resolvedPairs simValues t := by
        simp [resolvedPairs, List.filter_cons, h26]
      rw [hfilter, aggSums_cons]
      cases hsv : simValues m.measure_key with
      | some v =>
        simp only [simStep, h26, resolveStar, hsv, aggStep, List.any_cons]
        simp [h26, hsv]
        constructor
        · ring
        · ring
      | none =>
        cases hlb : m.latest_band with
        | none =>
          simp only [simStep, h26, resolveStar, hsv, hlb, aggStep, List.any_cons]
          simp [h26, hsv]
        | some b =>
          by_cases hb0 : b.star_rating = 0
          · simp only [simStep, h26, resolveStar, hsv, hlb, aggStep, List.any_cons]
            simp [h26, hsv, hb0]
          · simp only [simStep, h26, resolveStar, hsv, hlb, aggStep, List.any_cons]
            simp [h26, hsv, hb0]
            constructor
            · ring
            · ring
    · have hfilter : resolvedPairs simValues (m :: t) = resolvedPairs simValues t := by
        simp [resolvedPairs, List.filter_cons, h26]
      rw [hfilter]
      simp only [simStep, List.any_cons]
      simp [h26]

/-- `calcSimulatedWeightedAvg` is the sim-value gate around the
weighted-average core over the resolved (rating, weight) pairs. -/
lemma calcSimulatedWeightedAvg_eq (ms : List ContractMeasureRow)
    (simValues : String → Option ℚ) :
    calcSimulatedWeightedAvg ms simValues =
      if (ms.any fun m => m.in_2026 && (simValues m.measure_key).isSome) = false
      then none
      else weightedAvg (resolvedPairs simValues ms) := by
  rw [calcSimulatedWeightedAvg]
  rw [simStep_foldl simValues ms ⟨0, 0, false⟩]
  simp only [weightedAvg, Bool.false_or, zero_add]

/-- C3: when no cutpoint data at all is available (the cutpoints argument
is absent), the Classifier returns the fixed default rating 3 for every
value and every direction; being a total function, it never throws. -/
theorem C3_missing_cutpoints_default (v : ℚ) (lowerIsBetter : Bool) :
    calcStarFromPerformance v none lowerIsBetter = 3 := rfl

/-- C10: a supplied CutpointSet whose four thresholds are all null makes
the Classifier return 1 for every value in both directions, while the
neutral default 3 arises only when the cutpoints object itself is
absent. -/
theorem C10_all_null_thresholds (v : ℚ) (lowerIsBetter : Bool) :
    calcStarFromPerformance v (some ⟨none, none, none, none⟩) lowerIsBetter = 1 ∧
    calcStarFromPerformance v none lowerIsBetter = 3 := by
  refine ⟨?_, rfl⟩
  cases lowerIsBetter <;> simp [calcStarFromPerformance, hitsGe, hitsLe]

/-- C9: for every value, assigned rating, supplied CutpointSet and
direction, `isOutsideBand` returns true exactly when the Classifier's
natural rating for the value differs from the assigned rating; in
particular, with higher-is-better cutpoints 60/70/80/90, assigning
rating 5 to value 88 is flagged as adjusted. -/
theorem C9_isOutsideBand_iff :
    (∀ (v r : ℚ) (c : ContractCutpoints) (d : Bool),
      isOutsideBand v r (some c) d = true ↔
        calcStarFromPerformance v (some c) d ≠ r) ∧
    isOutsideBand 88 5 (some ⟨some 60, some 70, some 80, some 90⟩) false = true := by
  constructor
  · intro v r c d
    simp [isOutsideBand]
  · decide

/-- C7: with zero overrides supplied, the simulated pass reports "no
simulation performed" (the simulated aggregate is null), an outcome
distinct from any simulation that produced a numeric result. -/
theorem C7_no_overrides_no_simulation (ms : List ContractMeasureRow) (q : ℚ) :
    calcSimulatedWeightedAvg ms (fun _ => none) = none ∧
    calcSimulatedWeightedAvg ms (fun _ => none) ≠ some q := by
  have h : calcSimulatedWeightedAvg ms (fun _ => none) = none := by
    rw [calcSimulatedWeightedAvg_eq]
    simp
  exact ⟨h, by rw [h]; exact fun hc => Option.noConfusion hc⟩

/-- C5: entries with a null rating are excluded from both the numerator
and the denominator — inserting a `(null, w)` entry anywhere in an
aggregation input leaves the weighted-average output unchanged. -/
theorem C5_null_rating_idempotent (l1 l2 : List (Option ℚ × ℚ)) (w : ℚ) :
    weightedAvg (l1 ++ (none, w) :: l2) = weightedAvg (l1 ++ l2) := by
  have hsums : aggSums (l1 ++ (none, w) :: l2) = aggSums (l1 ++ l2) := by
    show List.foldl aggStep (0, 0) _ = List.foldl aggStep (0, 0) _
    rw [List.foldl_append, List.foldl_append, List.foldl_cons]
    rfl
  rw [weightedAvg, weightedAvg, hsums]

/-- C4: whenever every rating is null, or the weights of the non-null
entries sum to zero, the aggregated weighted score is null; the guard
`totalWeight > 0` means no division by zero is ever performed and no
exception is thrown. -/
theorem C4_zero_weight_null (l : List (Option ℚ × ℚ))
    (h : (∀ e ∈ l, e.1 = none) ∨
      ((l.filter fun e => e.1.isSome).map fun e => e.2).sum = 0) :
    weightedAvg l = none := by
  have hz : (aggSums l).1 = 0 := by
    rw [aggSums_fst]
    rcases h with h | h
    · have hfil : l.filter (fun e => e.1.isSome) = [] := by
        rw [List.filter_eq_nil_iff]
        intro e he
        simp [h e he]
      rw [hfil]
      rfl
    · exact h
  rw [weightedAvg, hz]
  simp

/-- Witness for C4 at the concrete input `[(null, 5)]`. -/
theorem C4_zero_weight_null_witness : weightedAvg [(none, 5)] = none :=
  C4_zero_weight_null [(none, 5)] (Or.inl (by simp))

/-- C1: the Classifier evaluates thresholds top-down.  For
higher-is-better the rating is 5 exactly when some `cut_5` exists and is
≤ the value, 4 exactly when that fails and some `cut_4` is ≤ the value,
and so on down to 1 when every (non-null) threshold is missed; for
lower-is-better the comparisons are `value ≤ cut` in the same order.  A
null threshold is unreachable (its ∃ is false), and a value equal to a
non-null `cut_5` earns 5 in both directions. -/
theorem C1_classifier_chain :
    (∀ (v : ℚ) (cp : ContractCutpoints),
      (calcStarFromPerformance v (some cp) false = 5 ↔
        (∃ c, cp.cut_5 = some c ∧ c ≤ v)) ∧
      (calcStarFromPerformance v (some cp) false = 4 ↔
        ¬ (∃ c, cp.cut_5 = some c ∧ c ≤ v) ∧ (∃ c, cp.cut_4 = some c ∧ c ≤ v)) ∧
      (calcStarFromPerformance v (some cp) false = 3 ↔
        ¬ (∃ c, cp.cut_5 = some c ∧ c ≤ v) ∧ ¬ (∃ c, cp.cut_4 = some c ∧ c ≤ v) ∧
        (∃ c, cp.cut_3 = some c ∧ c ≤ v)) ∧
      (calcStarFromPerformance v (some cp) false = 2 ↔
        ¬ (∃ c, cp.cut_5 = some c ∧ c ≤ v) ∧ ¬ (∃ c, cp.cut_4 = some c ∧ c ≤ v) ∧
        ¬ (∃ c, cp.cut_3 = some c ∧ c ≤ v) ∧ (∃ c, cp.cut_2 = some c ∧ c ≤ v)) ∧
      (calcStarFromPerformance v (some cp) false = 1 ↔
        ¬ (∃ c, cp.cut_5 = some c ∧ c ≤ v) ∧ ¬ (∃ c, cp.cut_4 = some c ∧ c ≤ v) ∧
        ¬ (∃ c, cp.cut_3 = some c ∧ c ≤ v) ∧ ¬ (∃ c, cp.cut_2 = some c ∧ c ≤ v))) ∧
    (∀ (v : ℚ) (cp : ContractCutpoints),
      (calcStarFromPerformance v (some cp) true = 5 ↔
        (∃ c, cp.cut_5 = some c ∧ v ≤ c)) ∧
      (calcStarFromPerformance v (some cp) true = 4 ↔
        ¬ (∃ c, cp.cut_5 = some c ∧ v ≤ c) ∧ (∃ c, cp.cut_4 = some c ∧ v ≤ c)) ∧
      (calcStarFromPerformance v (some cp) true = 3 ↔
        ¬ (∃ c, cp.cut_5 = some c ∧ v ≤ c) ∧ ¬ (∃ c, cp.cut_4 = some c ∧ v ≤ c) ∧
        (∃ c, cp.cut_3 = some c ∧ v ≤ c)) ∧
      (calcStarFromPerformance v (some cp) true = 2 ↔
        ¬ (∃ c, cp.cut_5 = some c ∧ v ≤ c) ∧ ¬ (∃ c, cp.cut_4 = some c ∧ v ≤ c) ∧
        ¬ (∃ c, cp.cut_3 = some c ∧ v ≤ c) ∧ (∃ c, cp.cut_2 = some c ∧ v ≤ c)) ∧
      (calcStarFromPerformance v (some cp) true = 1 ↔
        ¬ (∃ c, cp.cut_5 = some c ∧ v ≤ c) ∧ ¬ (∃ c, cp.cut_4 = some c ∧ v ≤ c) ∧
        ¬ (∃ c, cp.cut_3 = some c ∧ v ≤ c) ∧ ¬ (∃ c, cp.cut_2 = some c ∧ v ≤ c))) ∧
    (∀ (cp : ContractCutpoints) (c : ℚ), cp.cut_5 = some c →
      calcStarFromPerformance c (some cp) false = 5 ∧
      calcStarFromPerformance c (some cp) true = 5) := by
  refine ⟨?_, ?_, ?_⟩
  · intro v cp
    cases h5 : hitsGe v cp.cut_5 <;> cases h4 : hitsGe v cp.cut_4 <;>
      cases h3 : hitsGe v cp.cut_3 <;> cases h2 : hitsGe v cp.cut_2 <;>
      rw [← hitsGe_eq_true_iff, ← hitsGe_eq_true_iff, ← hitsGe_eq_true_iff,
        ← hitsGe_eq_true_iff] <;>
      simp [calcStarFromPerformance, h5, h4, h3, h2]
  · intro v cp
    cases h5 : hitsLe v cp.cut_5 <;> cases h4 : hitsLe v cp.cut_4 <;>
      cases h3 : hitsLe v cp.cut_3 <;> cases h2 : hitsLe v cp.cut_2 <;>
      rw [← hitsLe_eq_true_iff, ← hitsLe_eq_true_iff, ← hitsLe_eq_true_iff,
        ← hitsLe_eq_true_iff] <;>
      simp [calcStarFromPerformance, h5, h4, h3, h2]
  · intro cp c h5
    constructor <;> simp [calcStarFromPerformance, hitsGe, hitsLe, h5]

/-- Witness for C1: a value equal to `cut_5 = 90` earns 5 stars in both
directions under the example cutpoints. -/
theorem C1_classifier_chain_witness :
    calcStarFromPerformance 90 (some ⟨some 60, some 70, some 80, some 90⟩) false = 5 ∧
    calcStarFromPerformance 90 (some ⟨some 60, some 70, some 80, some 90⟩) true = 5 :=
  C1_classifier_chain.2.2 ⟨some 60, some 70, some 80, some 90⟩ 90 rfl

/-- C6: for a fixed CutpointSet the Classifier is monotone
non-decreasing in the value when higher is better, and monotone
non-increasing when lower is better. -/
theorem C6_classifier_monotone (cps : Option ContractCutpoints) (v1 v2 : ℚ)
    (h : v1 ≤ v2) :
    calcStarFromPerformance v1 cps false ≤ calcStarFromPerformance v2 cps false ∧
    calcStarFromPerformance v2 cps true ≤ calcStarFromPerformance v1 cps true := by
  cases cps with
  | none => simp [calcStarFromPerformance]
  | some cp =>
    constructor
    · have m5 := hitsGe_mono cp.cut_5 h
      have m4 := hitsGe_mono cp.cut_4 h
      have m3 := hitsGe_mono cp.cut_3 h
      have m2 := hitsGe_mono cp.cut_2 h
      simp only [calcStarFromPerformance, Bool.false_eq_true, if_false]
      split_ifs <;>
        first
          | exact absurd (m5 (by assumption)) (by assumption)
          | exact absurd (m4 (by assumption)) (by assumption)
          | exact absurd (m3 (by assumption)) (by assumption)
          | exact absurd (m2 (by assumption)) (by assumption)
          | norm_num
    · have m5 := hitsLe_anti cp.cut_5 h
      have m4 := hitsLe_anti cp.cut_4 h
      have m3 := hitsLe_anti cp.cut_3 h
      have m2 := hitsLe_anti cp.cut_2 h
      simp only [calcStarFromPerformance, if_true]
      split_ifs <;>
        first
          | exact absurd (m5 (by assumption)) (by assumption)
          | exact absurd (m4 (by assumption)) (by assumption)
          | exact absurd (m3 (by assumption)) (by assumption)
          | exact absurd (m2 (by assumption)) (by assumption)
          | norm_num

/-- Witness for C6 at values 72 ≤ 85 under the example cutpoints. -/
theorem C6_classifier_monotone_witness :
    calcStarFromPerformance 72 (some ⟨some 60, some 70, some 80, some 90⟩) false ≤
      calcStarFromPerformance 85 (some ⟨some 60, some 70, some 80, some 90⟩) false ∧
    calcStarFromPerformance 85 (some ⟨some 60, some 70, some 80, some 90⟩) true ≤
      calcStarFromPerformance 72 (some ⟨some 60, some 70, some 80, some 90⟩) true :=
  C6_classifier_monotone (some ⟨some 60, some 70, some 80, some 90⟩) 72 85 (by norm_num)

/-- C2 counterexample: for the aggregation input
`[(2, 7549), (3, 2451)]` the raw weighted score is 2.2451; the code
first rounds it to hundredths (2.25) and then half-star-rounds to 2.5,
while the claim's formula `round(score * 2) / 2` gives 2.0 — so the
half-star rating does not equal `round(overall_weighted_score * 2) / 2`. -/
theorem C2_half_star_counterexample :
    rawScore [(some 2, 7549), (some 3, 2451)] = 22451/10000 ∧
    weightedAvg [(some 2, 7549), (some 3, 2451)] = some (9/4) ∧
    halfStarOf (9/4) = 5/2 ∧
    (roundAway ((22451/10000 : ℚ) * 2) : ℚ) / 2 = 2 ∧
    (5/2 : ℚ) ≠ 2 := by
  refine ⟨?_, ?_, ?_, ?_, by norm_num⟩
  · simp only [rawScore, aggSums, aggStep, List.foldl]
    norm_num
  · have h : jsRound (((0:ℚ) + 2 * 7549 + 3 * 2451) / ((0:ℚ) + 7549 + 2451) * 100) = 225 := by
      apply jsRound_eq_of <;> norm_num
    simp only [weightedAvg, aggSums, aggStep, List.foldl, round2]
    rw [if_pos (by norm_num), h]
    norm_num
  · have h : jsRound ((9/4 : ℚ) * 2) = 5 := by
      apply jsRound_eq_of <;> norm_num
    rw [halfStarOf, h]
    norm_num
  · have h4 : roundAway ((22451/10000 : ℚ) * 2) = 4 := by
      rw [roundAway, if_pos (by norm_num), ratFloor_eq_intFloor]
      exact Int.floor_eq_iff.mpr ⟨by norm_num, by norm_num⟩
    rw [h4]
    norm_num

/-- C2 amended: the displayed half-star rating is
`round(S * 2) / 2` applied to the aggregator's output `S`, which is the
raw weighted score already rounded to hundredths (`Math.round(x*100)/100`),
not to the raw score itself; `Math.round` agrees with
round-half-away-from-zero on the nonnegative scores that arise; the
deterministic embedding reproduces the three rounding examples
4.0, 4.5 and 3.5. -/
theorem C2_half_star_amended :
    (∀ (l : List (Option ℚ × ℚ)) (r : ℚ), weightedAvg l = some r →
      r = round2 (rawScore l)) ∧
    (∀ x : ℚ, 0 ≤ x → halfStarOf x = (roundAway (x * 2) : ℚ) / 2) ∧
    (weightedAvg [(some 4, 1)] = some 4 ∧ halfStarOf 4 = 4) ∧
    (weightedAvg [(some 4, 1), (some 5, 1)] = some (9/2) ∧ halfStarOf (9/2) = 9/2) ∧
    (weightedAvg [(some 3, 1), (some 4, 2)] = some (367/100) ∧
      halfStarOf (367/100) = 7/2) := by
  refine ⟨?_, ?_, ⟨?_, ?_⟩, ⟨?_, ?_⟩, ⟨?_, ?_⟩⟩
  · intro l r hr
    by_cases htw : 0 < (aggSums l).1
    · rw [weightedAvg, if_pos htw] at hr
      exact (Option.some_inj.mp hr).symm
    · rw [weightedAvg, if_neg htw] at hr
      exact absurd hr (by simp)
  · intro x hx
    rw [halfStarOf, jsRound, roundAway, if_pos (mul_nonneg hx (by norm_num))]
  · have h : jsRound (((0:ℚ) + 4 * 1) / ((0:ℚ) + 1) * 100) = 400 := by
      apply jsRound_eq_of <;> norm_num
    simp only [weightedAvg, aggSums, aggStep, List.foldl, round2]
    rw [if_pos (by norm_num), h]
    norm_num
  · have h : jsRound ((4:ℚ) * 2) = 8 := by
      apply jsRound_eq_of <;> norm_num
    rw [halfStarOf, h]
    norm_num
  · have h : jsRound (((0:ℚ) + 4 * 1 + 5 * 1) / ((0:ℚ) + 1 + 1) * 100) = 450 := by
      apply jsRound_eq_of <;> norm_num
    simp only [weightedAvg, aggSums, aggStep, List.foldl, round2]
    rw [if_pos (by norm_num), h]
    norm_num
  · have h : jsRound ((9/2 : ℚ) * 2) = 9 := by
      apply jsRound_eq_of <;> norm_num
    rw [halfStarOf, h]
    norm_num
  · have h : jsRound (((0:ℚ) + 3 * 1 + 4 * 2) / ((0:ℚ) + 1 + 2) * 100) = 367 := by
      apply jsRound_eq_of <;> norm_num
    simp only [weightedAvg, aggSums, aggStep, List.foldl, round2]
    rw [if_pos (by norm_num), h]
    norm_num
  · have h : jsRound ((367/100 : ℚ) * 2) = 7 := by
      apply jsRound_eq_of <;> norm_num
    rw [halfStarOf, h]
    norm_num

/-- Witness for the amended C2 at the concrete input `[(4, 1)]` and at
the nonnegative score 4. -/
theorem C2_half_star_amended_witness :
    (4 : ℚ) = round2 (rawScore [(some 4, 1)]) ∧
    halfStarOf 4 = (roundAway ((4:ℚ) * 2) : ℚ) / 2 :=
  ⟨C2_half_star_amended.1 [(some 4, 1)] 4 C2_half_star_amended.2.2.1.1,
   C2_half_star_amended.2.1 4 (by norm_num)⟩

/-- The concrete adjusted measure of the C8 analysis: higher-is-better
cutpoints 60/70/80/90, externally assigned latest rating 5. -/
def measure88 : ContractMeasureRow :=
  ⟨"M", "M", "Measure M", "C", false, 1, true, [],
   some ⟨2026, 5, none⟩, some ⟨some 60, some 70, some 80, some 90⟩⟩

/-- C8 counterexample: for a measure whose actual value 88 was
externally assigned rating 5 (outside the band), simulating with the
override equal to the actual value yields simulated rating 4 ≠ 5, so the
per-measure delta is not 0. -/
theorem C8_sim_delta_counterexample :
    simStarCell measure88 (fun _ => some 88) = some 4 ∧
    measure88.latest_band = some ⟨2026, 5, none⟩ ∧
    isOutsideBand 88 5 (some ⟨some 60, some 70, some 80, some 90⟩)
      measure88.lower_is_better = true ∧
    ((4 : ℚ) ≠ 5) :=
  ⟨by decide, rfl, by decide, by norm_num⟩

/-- C8 amended: simulating with an override equal to the measure's
actual value reproduces the Classifier's natural rating for that value;
this equals the measure's assigned rating (per-measure delta 0) exactly
when the assigned rating is not flagged as adjusted (`isOutsideBand`
false); for an externally adjusted rating the delta is nonzero, as the
counterexample shows. -/
theorem C8_sim_delta_amended (m : ContractMeasureRow) (cp : ContractCutpoints)
    (v r : ℚ) (h26 : m.in_2026 = true) (hcp : m.cutpoints = some cp)
    (hadj : isOutsideBand v r (some cp) m.lower_is_better = false) :
    simStarCell m (fun _ => some v) = some r := by
  have hnat : calcStarFromPerformance v (some cp) m.lower_is_better = r := by
    simp [isOutsideBand] at hadj
    exact hadj
  simp only [simStarCell, h26, hcp]
  rw [hnat]

/-- Witness for the amended C8: overriding with the (non-adjusted)
actual value 90 reproduces the assigned rating 5. -/
theorem C8_sim_delta_amended_witness :
    simStarCell measure88 (fun _ => some 90) = some 5 :=
  C8_sim_delta_amended measure88 ⟨some 60, some 70, some 80, some 90⟩ 90 5
    rfl rfl (by decide)

end MaData
